import Mathlib

/-!
Shallow embedding of `src/win32.rs` from the riri-file-dialog repository.

The file models the data and control flow of the Win32 file-dialog wrapper:
the `FileDialogManager` singleton registry (a `Mutex<Option<FileDialogManager>>`
static, modelled as explicit `Option FileDialogManager` state threading), the
UTF-16 text codec (`FileDialogUtils::to_win32_wide`), the filter descriptors
(`FileTypeFilter`, `FileTypeFilterWin32`), and the `OpenDialog` / `SaveDialog`
sessions.  OS calls (COM dialog methods) are modelled by an oracle environment
`OsEnv` fixing each fallible call's outcome, and each dialog operation returns
the produced result, the final registry state, and the trace of OS calls made.
-/

/-- Win32 window handle (`HWND`), an opaque machine word. -/
structure HWND where
  val : Nat
deriving DecidableEq, Repr

/-- A Windows path (`PathBuf`).  Windows paths need not be valid Unicode:
`Path::to_str` yields `Some` only for valid-Unicode paths.  We model a path as
either a valid-Unicode path carrying its string, or a non-Unicode path carrying
an opaque tag. -/
inductive WPath where
  | valid (s : String)
  | invalid (tag : Nat)
deriving DecidableEq, Repr

/-- `Path::to_str`: `Some` of the string for valid-Unicode paths, else `None`. -/
def WPath.to_str : WPath → Option String
  | .valid s => some s
  | .invalid _ => none

/-- Outcome of a Rust expression that may `unwrap` a `None`: either a panic or
a value. -/
inductive PanicOr (α : Type) where
  | panicked
  | value (a : α)
deriving DecidableEq, Repr

/-- `FileTypeFilter { extension, description }` (win32.rs lines 32-45). -/
structure FileTypeFilter where
  extension : String
  description : String
deriving DecidableEq, Repr

/-- `FileTypeFilter::new` — pure constructor, no validation. -/
def FileTypeFilter.new (extension description : String) : FileTypeFilter :=
  { extension, description }

/-- `FileTypeFilter::get_extension`. -/
def FileTypeFilter.get_extension (f : FileTypeFilter) : String := f.extension

/-- `FileTypeFilter::get_description`. -/
def FileTypeFilter.get_description (f : FileTypeFilter) : String := f.description

/-- One UTF-16 code unit sequence for a Unicode scalar value, as produced by
Rust's `char` UTF-16 encoding: one unit below `0x10000`, otherwise a surrogate
pair. -/
def encodeUtf16Unit (c : Nat) : List Nat :=
  if c < 0x10000 then [c]
  else [0xD800 + (c - 0x10000) / 0x400, 0xDC00 + (c - 0x10000) % 0x400]

/-- `str::encode_utf16`: the concatenation of each character's UTF-16 units. -/
def encodeUtf16 (s : String) : List Nat :=
  (s.data.map fun c => encodeUtf16Unit c.toNat).flatten

namespace FileDialogUtils

/-- `FileDialogUtils::to_win32_wide` (win32.rs lines 125-130): UTF-16 encode
and append a null terminator. -/
def to_win32_wide (s : String) : List Nat :=
  encodeUtf16 s ++ [0]

end FileDialogUtils

/-- `FileTypeFilterWin32 { extension: Vec<u16>, description: Vec<u16> }`
(win32.rs lines 47-51). -/
structure FileTypeFilterWin32 where
  extension : List Nat
  description : List Nat
deriving DecidableEq, Repr

/-- `FileTypeFilterWin32::new` (win32.rs lines 54-59): renders the extension as
the wildcard pattern `*.{extension}` and wide-encodes both fields. -/
def FileTypeFilterWin32.new (extension description : String) : FileTypeFilterWin32 :=
  let extension2 := "*." ++ extension
  { extension := FileDialogUtils.to_win32_wide extension2,
    description := FileDialogUtils.to_win32_wide description }

/-- `FileTypeFilterWin32::get_extension` (returns the pattern buffer). -/
def FileTypeFilterWin32.get_extension (f : FileTypeFilterWin32) : List Nat := f.extension

/-- `FileTypeFilterWin32::get_description` (returns the label buffer). -/
def FileTypeFilterWin32.get_description (f : FileTypeFilterWin32) : List Nat := f.description

/-- `FileDialogManager { default: PathBuf, window: HWND }` (win32.rs lines
65-70).  Note there is a single `default` field shared by the open- and
save-accessors. -/
structure FileDialogManager where
  default : WPath
  window : HWND
deriving DecidableEq, Repr

/-- The state held by the static `FILE_DIALOG_MANAGER : Mutex<Option<FileDialogManager>>`
(win32.rs line 75).  The mutex discipline is sequentialized away: state is
threaded explicitly. -/
abbrev MgrState := Option FileDialogManager

namespace FileDialogManager

/-- `FileDialogManager::new` (win32.rs lines 79-83): unconditionally replaces
the singleton with a fresh instance.  It is a `pub` function. -/
def new (default : WPath) (window : HWND) (_st : MgrState) : MgrState :=
  some { default, window }

/-- `FileDialogManager::try_get` (win32.rs lines 89-95): returns the locked
borrow (modelled as the state contents) when the singleton exists, else `None`
with no error. -/
def try_get (st : MgrState) : Option MgrState :=
  match st.isSome with
  | true => some st
  | false => none

/-- `FileDialogManager::get` (win32.rs lines 85-87): `try_get().unwrap()` — a
hard failure (panic) when the registry is uninitialized. -/
def get (st : MgrState) : PanicOr MgrState :=
  match try_get st with
  | some borrow => .value borrow
  | none => .panicked

/-- `FileDialogManager::get_or_set` (win32.rs lines 97-102):
`try_get().unwrap_or_else(|| { new(default, window); get() })`.
Returns the borrow obtained together with the final static state. -/
def get_or_set (default : WPath) (window : HWND) (st : MgrState) :
    PanicOr MgrState × MgrState :=
  match try_get st with
  | some borrow => (.value borrow, st)
  | none =>
    let st2 := new default window st
    (get st2, st2)

/-- `FileDialogManager::get_default_open` (win32.rs line 104). -/
def get_default_open (m : FileDialogManager) : WPath := m.default

/-- `FileDialogManager::get_default_save` (win32.rs line 105). -/
def get_default_save (m : FileDialogManager) : WPath := m.default

/-- `FileDialogManager::set_default_open` (win32.rs line 106). -/
def set_default_open (m : FileDialogManager) (value : WPath) : FileDialogManager :=
  { m with default := value }

/-- `FileDialogManager::set_default_save` (win32.rs line 107). -/
def set_default_save (m : FileDialogManager) (value : WPath) : FileDialogManager :=
  { m with default := value }

/-- `FileDialogManager::get_window_handle` (win32.rs line 108). -/
def get_window_handle (m : FileDialogManager) : HWND := m.window

end FileDialogManager

/-- `FOS_PICKFOLDERS` dialog-options bit (Windows shell constant `0x20`). -/
def FOS_PICKFOLDERS : Nat := 0x20

/-- One OS (COM) call issued by a dialog session, with the arguments that the
session computes.  Traces of these record what a dialog operation did to the
OS dialog object. -/
inductive OsCall where
  | setFileTypes (specs : List (List Nat × List Nat))
  | getOptions
  | setOptions (options : Nat)
  | setTitle (title : List Nat)
  | createItemFromParsingName (path : List Nat)
  | setDefaultFolder
  | showDialog (window : HWND)
  | getResult
  | getDisplayName
  | coTaskMemFree
deriving DecidableEq, Repr

/-- Whether an OS call installs file-type filters (`SetFileTypes`). -/
def OsCall.isSetFileTypes : OsCall → Bool
  | .setFileTypes _ => true
  | _ => false

/-- Which OS call failed, for the `Err` outcome of a dialog operation
(win32.rs propagates the `windows::core::Error` of the failing call with `?`). -/
inductive DialogError where
  | setFileTypesFailed
  | getOptionsFailed
  | setOptionsFailed
  | setTitleFailed
  | parsingNameFailed
  | setDefaultFolderFailed
  | getResultFailed
  | getDisplayNameFailed
  | decodeFailed
deriving DecidableEq, Repr

/-- Result of one dialog operation: a panic (a Rust `unwrap` of `None`), a
propagated OS error, or `Ok` of the optional chosen path (`None` = the user
dismissed the dialog). -/
inductive DialogOutcome where
  | panics
  | err (e : DialogError)
  | ok (result : Option String)
deriving DecidableEq, Repr

/-- Oracle fixing the outcome of each OS call a dialog invocation can make:
`true` / `some` means the call succeeds.  `get_options` carries the option
bits `IFileOpenDialog::GetOptions` would report; `decoded` carries the chosen
path string that `GetDisplayName(...).to_string()` would produce (`none` means
retrieval/decoding fails at that step). -/
structure OsEnv where
  set_file_types_ok : Bool
  get_options : Option Nat
  set_options_ok : Bool
  set_title_ok : Bool
  parsing_name_ok : Bool
  set_default_folder_ok : Bool
  show_ok : Bool
  get_result_ok : Bool
  get_display_name_ok : Bool
  decoded : Option String
deriving DecidableEq, Repr

/-- The full effect of one dialog operation: its returned outcome, the
registry (`FileDialogManager`) as left by the operation, and the trace of OS
calls issued. -/
structure DialogRun where
  outcome : DialogOutcome
  manager : FileDialogManager
  trace : List OsCall
deriving DecidableEq, Repr

/-- `FileDialog::get_title` default trait method (win32.rs lines 113-118):
the caller-supplied title if present, else the session's default title, wide
encoded. -/
def FileDialog.get_title (default_title : String) (title : Option String) : List Nat :=
  match title with
  | some v => FileDialogUtils.to_win32_wide v
  | none => FileDialogUtils.to_win32_wide default_title

/-- `OpenDialog::get_default_title` (win32.rs lines 137-139). -/
def OpenDialog.get_default_title : String := "Open a file"

/-- `SaveDialog::get_default_title` (win32.rs lines 210-212). -/
def SaveDialog.get_default_title : String := "Save a file"

/-- `OpenDialog::open_inner` (win32.rs lines 162-181): set the title, resolve
the registry's open-default path (`to_str().unwrap()` — panics on a
non-Unicode path) to a shell item, set it as default folder, show the dialog;
on confirmation retrieve, decode, remember and return the chosen path; on
dismissal return `Ok(None)`. -/
def OpenDialog.open_inner (env : OsEnv) (mgr : FileDialogManager)
    (title : Option String) : DialogRun :=
  let titleW := FileDialog.get_title OpenDialog.get_default_title title
  let t0 := [OsCall.setTitle titleW]
  if env.set_title_ok then
    match (FileDialogManager.get_default_open mgr).to_str with
    | none => ⟨.panics, mgr, t0⟩
    | some s =>
      let default_folder := FileDialogUtils.to_win32_wide s
      let t1 := t0 ++ [OsCall.createItemFromParsingName default_folder]
      if env.parsing_name_ok then
        let t2 := t1 ++ [OsCall.setDefaultFolder]
        if env.set_default_folder_ok then
          let t3 := t2 ++ [OsCall.showDialog (FileDialogManager.get_window_handle mgr)]
          if env.show_ok then
            let t4 := t3 ++ [OsCall.getResult]
            if env.get_result_ok then
              let t5 := t4 ++ [OsCall.getDisplayName]
              if env.get_display_name_ok then
                match env.decoded with
                | none => ⟨.err .decodeFailed, mgr, t5⟩
                | some p =>
                  let mgr2 := FileDialogManager.set_default_open mgr (WPath.valid p)
                  ⟨.ok (some p), mgr2, t5 ++ [OsCall.coTaskMemFree]⟩
              else ⟨.err .getDisplayNameFailed, mgr, t5⟩
            else ⟨.err .getResultFailed, mgr, t4⟩
          else ⟨.ok none, mgr, t3⟩
        else ⟨.err .setDefaultFolderFailed, mgr, t2⟩
      else ⟨.err .parsingNameFailed, mgr, t1⟩
  else ⟨.err .setTitleFailed, mgr, t0⟩

/-- `OpenDialog::open` (win32.rs lines 183-196): derive the platform filters
and install them when supplied, then run `open_inner`. -/
def OpenDialog.open_dlg (env : OsEnv) (mgr : FileDialogManager)
    (filter : Option (List FileTypeFilter)) (title : Option String) : DialogRun :=
  let filter_platform := filter.map fun fs =>
    fs.map fun v => FileTypeFilterWin32.new v.get_extension v.get_description
  match filter_platform with
  | some f =>
    let types := f.map fun v => (v.get_description, v.get_extension)
    let t0 := [OsCall.setFileTypes types]
    if env.set_file_types_ok then
      let r := OpenDialog.open_inner env mgr title
      ⟨r.outcome, r.manager, t0 ++ r.trace⟩
    else ⟨.err .setFileTypesFailed, mgr, t0⟩
  | none => OpenDialog.open_inner env mgr title

/-- `OpenDialog::open_folder` (win32.rs lines 198-202): read the dialog's
options, OR in `FOS_PICKFOLDERS`, then run `open_inner`.  No filters are ever
installed. -/
def OpenDialog.open_folder (env : OsEnv) (mgr : FileDialogManager)
    (title : Option String) : DialogRun :=
  match env.get_options with
  | none => ⟨.err .getOptionsFailed, mgr, [OsCall.getOptions]⟩
  | some options =>
    let t0 := [OsCall.getOptions, OsCall.setOptions (options ||| FOS_PICKFOLDERS)]
    if env.set_options_ok then
      let r := OpenDialog.open_inner env mgr title
      ⟨r.outcome, r.manager, t0 ++ r.trace⟩
    else ⟨.err .setOptionsFailed, mgr, t0⟩

/-- `SaveDialog::save` (win32.rs lines 235-265): the same configuration
sequence as `open` (filters, title, default folder, show) inlined against the
save dialog, reading and writing the registry through the save accessors. -/
def SaveDialog.save (env : OsEnv) (mgr : FileDialogManager)
    (filter : Option (List FileTypeFilter)) (title : Option String) : DialogRun :=
  let rest : List OsCall → DialogRun := fun tf =>
    let titleW := FileDialog.get_title SaveDialog.get_default_title title
    let t0 := tf ++ [OsCall.setTitle titleW]
    if env.set_title_ok then
      match (FileDialogManager.get_default_save mgr).to_str with
      | none => ⟨.panics, mgr, t0⟩
      | some s =>
        let default_folder := FileDialogUtils.to_win32_wide s
        let t1 := t0 ++ [OsCall.createItemFromParsingName default_folder]
        if env.parsing_name_ok then
          let t2 := t1 ++ [OsCall.setDefaultFolder]
          if env.set_default_folder_ok then
            let t3 := t2 ++ [OsCall.showDialog (FileDialogManager.get_window_handle mgr)]
            if env.show_ok then
              let t4 := t3 ++ [OsCall.getResult]
              if env.get_result_ok then
                let t5 := t4 ++ [OsCall.getDisplayName]
                if env.get_display_name_ok then
                  match env.decoded with
                  | none => ⟨.err .decodeFailed, mgr, t5⟩
                  | some p =>
                    let mgr2 := FileDialogManager.set_default_save mgr (WPath.valid p)
                    ⟨.ok (some p), mgr2, t5 ++ [OsCall.coTaskMemFree]⟩
                else ⟨.err .getDisplayNameFailed, mgr, t5⟩
              else ⟨.err .getResultFailed, mgr, t4⟩
            else ⟨.ok none, mgr, t3⟩
          else ⟨.err .setDefaultFolderFailed, mgr, t2⟩
        else ⟨.err .parsingNameFailed, mgr, t1⟩
    else ⟨.err .setTitleFailed, mgr, t0⟩
  let filter_platform := filter.map fun fs =>
    fs.map fun v => FileTypeFilterWin32.new v.get_extension v.get_description
  match filter_platform with
  | some f =>
    let types := f.map fun v => (v.get_description, v.get_extension)
    let tf := [OsCall.setFileTypes types]
    if env.set_file_types_ok then rest tf
    else ⟨.err .setFileTypesFailed, mgr, tf⟩
  | none => rest []

/-- Selector over the three user-facing dialog operations, so a single
statement can quantify over `open` / `open_folder` / `save`.  `open_folder`
takes no filter argument and ignores the one supplied here. -/
inductive OpKind where
  | openFile
  | openFolder
  | saveFile
deriving DecidableEq, Repr

/-- Dispatch an `OpKind` to the corresponding dialog operation. -/
def dialog_invoke (k : OpKind) (env : OsEnv) (mgr : FileDialogManager)
    (filter : Option (List FileTypeFilter)) (title : Option String) : DialogRun :=
  match k with
  | .openFile => OpenDialog.open_dlg env mgr filter title
  | .openFolder => OpenDialog.open_folder env mgr title
  | .saveFile => SaveDialog.save env mgr filter title

/-! ## Helper lemmas -/

/-- `open_inner` either leaves the registry untouched, or it succeeded: the
decode step produced some path `P`, the outcome is `Ok(Some P)` and the
registry's open-default was set to `P`. -/
theorem open_inner_manager_cases (env : OsEnv) (mgr : FileDialogManager)
    (title : Option String) :
    (OpenDialog.open_inner env mgr title).manager = mgr
    ∨ ∃ P, env.decoded = some P
        ∧ (OpenDialog.open_inner env mgr title).outcome = .ok (some P)
        ∧ (OpenDialog.open_inner env mgr title).manager
            = FileDialogManager.set_default_open mgr (WPath.valid P) := by
  rcases env with ⟨ft, go, so, stk, pn, sf, sh, gr, gd, dec⟩
  rcases mgr with ⟨pd, w⟩
  rcases pd with s | tag <;>
    cases stk <;> cases pn <;> cases sf <;> cases sh <;> cases gr <;> cases gd <;>
    rcases dec with _ | P <;>
    first
      | exact Or.inl rfl
      | exact Or.inr ⟨P, rfl, rfl, rfl⟩

/-- `save` either leaves the registry untouched, or it succeeded: the decode
step produced some path `P`, the outcome is `Ok(Some P)` and the registry's
save-default was set to `P`. -/
theorem save_manager_cases (env : OsEnv) (mgr : FileDialogManager)
    (filter : Option (List FileTypeFilter)) (title : Option String) :
    (SaveDialog.save env mgr filter title).manager = mgr
    ∨ ∃ P, env.decoded = some P
        ∧ (SaveDialog.save env mgr filter title).outcome = .ok (some P)
        ∧ (SaveDialog.save env mgr filter title).manager
            = FileDialogManager.set_default_save mgr (WPath.valid P) := by
  rcases env with ⟨ft, go, so, stk, pn, sf, sh, gr, gd, dec⟩
  rcases mgr with ⟨pd, w⟩
  rcases filter with _ | fs <;>
    rcases pd with s | tag <;>
    cases ft <;> cases stk <;> cases pn <;> cases sf <;> cases sh <;> cases gr <;>
    cases gd <;> rcases dec with _ | P <;>
    first
      | exact Or.inl rfl
      | exact Or.inr ⟨P, rfl, rfl, rfl⟩

/-- `open_dlg` either leaves the registry untouched, or it succeeded and set
the open-default to the decoded path. -/
theorem open_dlg_manager_cases (env : OsEnv) (mgr : FileDialogManager)
    (filter : Option (List FileTypeFilter)) (title : Option String) :
    (OpenDialog.open_dlg env mgr filter title).manager = mgr
    ∨ ∃ P, env.decoded = some P
        ∧ (OpenDialog.open_dlg env mgr filter title).outcome = .ok (some P)
        ∧ (OpenDialog.open_dlg env mgr filter title).manager
            = FileDialogManager.set_default_open mgr (WPath.valid P) := by
  rcases filter with _ | fs
  · exact open_inner_manager_cases env mgr title
  · cases hft : env.set_file_types_ok
    · exact Or.inl (by simp [OpenDialog.open_dlg, hft])
    · have h := open_inner_manager_cases env mgr title
      simpa [OpenDialog.open_dlg, hft] using h

/-- `open_folder` either leaves the registry untouched, or it succeeded and
set the open-default to the decoded path. -/
theorem open_folder_manager_cases (env : OsEnv) (mgr : FileDialogManager)
    (title : Option String) :
    (OpenDialog.open_folder env mgr title).manager = mgr
    ∨ ∃ P, env.decoded = some P
        ∧ (OpenDialog.open_folder env mgr title).outcome = .ok (some P)
        ∧ (OpenDialog.open_folder env mgr title).manager
            = FileDialogManager.set_default_open mgr (WPath.valid P) := by
  cases hgo : env.get_options with
  | none => exact Or.inl (by simp [OpenDialog.open_folder, hgo])
  | some options =>
    cases hso : env.set_options_ok
    · exact Or.inl (by simp [OpenDialog.open_folder, hgo, hso])
    · have h := open_inner_manager_cases env mgr title
      simpa [OpenDialog.open_folder, hgo, hso] using h

/-- Any of the three operations: the registry is untouched unless the
operation succeeded with `Ok(Some P)` for the decoded path `P`, in which case
the (shared) default was set to `P`. -/
theorem invoke_manager_cases (k : OpKind) (env : OsEnv) (mgr : FileDialogManager)
    (filter : Option (List FileTypeFilter)) (title : Option String) :
    (dialog_invoke k env mgr filter title).manager = mgr
    ∨ ∃ P, env.decoded = some P
        ∧ (dialog_invoke k env mgr filter title).outcome = .ok (some P)
        ∧ (dialog_invoke k env mgr filter title).manager
            = { mgr with default := WPath.valid P } := by
  cases k
  · exact open_dlg_manager_cases env mgr filter title
  · exact open_folder_manager_cases env mgr title
  · exact save_manager_cases env mgr filter title

/-! ## Claims -/

/-- C1: First-writer-wins singleton.  `get_or_set(d1, w1)` on the
uninitialized registry followed by `get_or_set(d2, w2)` returns the same
registry borrow both times; after the second call the installed instance still
has default path `d1` and window handle `w1` — the second call's arguments are
ignored. -/
theorem C1_get_or_set_first_writer_wins (d1 d2 : WPath) (w1 w2 : HWND) :
    (FileDialogManager.get_or_set d2 w2 (FileDialogManager.get_or_set d1 w1 none).2).1
      = (FileDialogManager.get_or_set d1 w1 none).1
    ∧ (FileDialogManager.get_or_set d1 w1 none).1
      = .value (some { default := d1, window := w1 })
    ∧ (FileDialogManager.get_or_set d2 w2 (FileDialogManager.get_or_set d1 w1 none).2).2
      = some { default := d1, window := w1 } :=
  ⟨rfl, rfl, rfl⟩

/-- C2 counterexample: the registry keeps a single shared default path, so
`set_default_open` does change what `get_default_save` returns.  Concretely,
on a registry whose default is `"b"`, `set_default_open "a"` makes
`get_default_save` return `"a"`, not `"b"`. -/
theorem C2_counterexample :
    ¬ (FileDialogManager.get_default_save
        (FileDialogManager.set_default_open
          { default := WPath.valid "b", window := ⟨0⟩ } (WPath.valid "a"))
      = FileDialogManager.get_default_save
          { default := WPath.valid "b", window := ⟨0⟩ }) := by
  decide

/-- C2 amended: because the registry stores a single shared default path,
`set_default_open p` makes both `get_default_open` and `get_default_save`
return `p`, and symmetrically for `set_default_save p`. -/
theorem C2_amended_shared_default (m : FileDialogManager) (p : WPath) :
    FileDialogManager.get_default_save (FileDialogManager.set_default_open m p) = p
    ∧ FileDialogManager.get_default_open (FileDialogManager.set_default_open m p) = p
    ∧ FileDialogManager.get_default_open (FileDialogManager.set_default_save m p) = p
    ∧ FileDialogManager.get_default_save (FileDialogManager.set_default_save m p) = p :=
  ⟨rfl, rfl, rfl, rfl⟩

/-- C6: Uninitialized access.  Before any `new`/`get_or_set`, `try_get`
returns the empty result with no error, and `get` in the same state is a hard
failure (panic via `unwrap`). -/
theorem C6_uninitialized_access :
    FileDialogManager.try_get (none : MgrState) = none
    ∧ FileDialogManager.get (none : MgrState) = .panicked :=
  ⟨rfl, rfl⟩

/-- C7 counterexample: re-creation IS exposed — `FileDialogManager::new` is a
public constructor that unconditionally overwrites the singleton.  After
creating the registry with window handle 1, calling `new` again installs
window handle 2, so the window handle of a created registry can change. -/
theorem C7_counterexample :
    (FileDialogManager.new (WPath.valid "q") ⟨2⟩
        (FileDialogManager.new (WPath.valid "p") ⟨1⟩ none)).map
      FileDialogManager.get_window_handle = some ⟨2⟩
    ∧ ((⟨2⟩ : HWND) ≠ (⟨1⟩ : HWND)) :=
  ⟨rfl, by decide⟩

/-- C7 amended: once the singleton is created its window handle is unchanged
by `get`, `try_get`, `get_or_set`, the default-path setters, and every dialog
operation; only the public constructor `new`, which overwrites the whole
instance unconditionally, can replace it. -/
theorem C7_amended_window_fixed (m : FileDialogManager) (d p : WPath) (w : HWND)
    (k : OpKind) (env : OsEnv) (filter : Option (List FileTypeFilter))
    (title : Option String) :
    (FileDialogManager.get_or_set d w (some m)).2 = some m
    ∧ FileDialogManager.get_window_handle (FileDialogManager.set_default_open m p)
        = FileDialogManager.get_window_handle m
    ∧ FileDialogManager.get_window_handle (FileDialogManager.set_default_save m p)
        = FileDialogManager.get_window_handle m
    ∧ FileDialogManager.try_get (some m) = some (some m)
    ∧ FileDialogManager.get (some m) = .value (some m)
    ∧ FileDialogManager.get_window_handle ((dialog_invoke k env m filter title).manager)
        = FileDialogManager.get_window_handle m := by
  refine ⟨rfl, rfl, rfl, rfl, rfl, ?_⟩
  rcases invoke_manager_cases k env m filter title with h | ⟨P, _, _, h⟩
  · rw [h]
  · rw [h]; rfl

/-- C9: Filter encoding.  For every extension `e` and description `d`, the
platform filter's pattern is the null-terminated UTF-16 encoding of `"*."`
followed by `e`, and its label is the null-terminated UTF-16 encoding of `d`
unchanged; concretely, extension `"png"` with description `"Images"` yields
the code units of `"*.png"` and `"Images"`, each null-terminated. -/
theorem C9_filter_encoding (e d : String) :
    (FileTypeFilterWin32.new e d).get_extension = encodeUtf16 ("*." ++ e) ++ [0]
    ∧ (FileTypeFilterWin32.new e d).get_description = encodeUtf16 d ++ [0]
    ∧ (FileTypeFilterWin32.new "png" "Images").get_extension
        = [42, 46, 112, 110, 103, 0]
    ∧ (FileTypeFilterWin32.new "png" "Images").get_description
        = [73, 109, 97, 103, 101, 115, 0] := by
  refine ⟨rfl, rfl, ?_, ?_⟩ <;> decide

/-- C3: Round-trip default update on confirmation.  When every OS call
succeeds and the user confirms with chosen path `P`, an Open invocation
(`open_inner`, shared by `open` and `open_folder`) and a Save invocation both
return `Ok(Some P)` and set the registry's remembered default path for their
dialog kind to the full returned path `P`, which is exactly what a subsequent
session's starting folder reads. -/
theorem C3_roundtrip_default_update (env : OsEnv) (mgr : FileDialogManager)
    (filter : Option (List FileTypeFilter)) (title : Option String) (s P : String)
    (hpath : mgr.default = WPath.valid s)
    (hft : env.set_file_types_ok = true)
    (ht : env.set_title_ok = true) (hp : env.parsing_name_ok = true)
    (hf : env.set_default_folder_ok = true) (hs : env.show_ok = true)
    (hr : env.get_result_ok = true) (hgd : env.get_display_name_ok = true)
    (hdec : env.decoded = some P) :
    (OpenDialog.open_inner env mgr title).outcome = .ok (some P)
    ∧ FileDialogManager.get_default_open ((OpenDialog.open_inner env mgr title).manager)
        = WPath.valid P
    ∧ (SaveDialog.save env mgr filter title).outcome = .ok (some P)
    ∧ FileDialogManager.get_default_save ((SaveDialog.save env mgr filter title).manager)
        = WPath.valid P := by
  rcases env with ⟨ft, go, so, stk, pn, sf, sh, gr, gd, dec⟩
  subst hft; subst ht; subst hp; subst hf; subst hs; subst hr; subst hgd; subst hdec
  rcases mgr with ⟨pd, w⟩
  rcases pd with s2 | tag
  · rcases filter with _ | fs <;> exact ⟨rfl, rfl, rfl, rfl⟩
  · exact nomatch hpath

/-- C3 witness: a fully successful Open and Save run at concrete inputs. -/
theorem C3_roundtrip_default_update_witness :
    (OpenDialog.open_inner
        ⟨true, some 0, true, true, true, true, true, true, true, some "C:/pick"⟩
        ⟨WPath.valid "C:/start", ⟨5⟩⟩ none).outcome = .ok (some "C:/pick")
    ∧ FileDialogManager.get_default_open ((OpenDialog.open_inner
        ⟨true, some 0, true, true, true, true, true, true, true, some "C:/pick"⟩
        ⟨WPath.valid "C:/start", ⟨5⟩⟩ none).manager) = WPath.valid "C:/pick"
    ∧ (SaveDialog.save
        ⟨true, some 0, true, true, true, true, true, true, true, some "C:/pick"⟩
        ⟨WPath.valid "C:/start", ⟨5⟩⟩ none none).outcome = .ok (some "C:/pick")
    ∧ FileDialogManager.get_default_save ((SaveDialog.save
        ⟨true, some 0, true, true, true, true, true, true, true, some "C:/pick"⟩
        ⟨WPath.valid "C:/start", ⟨5⟩⟩ none none).manager) = WPath.valid "C:/pick" :=
  C3_roundtrip_default_update
    ⟨true, some 0, true, true, true, true, true, true, true, some "C:/pick"⟩
    ⟨WPath.valid "C:/start", ⟨5⟩⟩ none none "C:/start" "C:/pick"
    rfl rfl rfl rfl rfl rfl rfl rfl rfl

/-- C4: Atomicity on cancel or error.  Whenever `open`/`open_folder`/`save`
ends in user cancellation (`Ok(None)`) or in a propagated OS error, the
registry is left exactly as it was before the invocation. -/
theorem C4_atomic_on_cancel_or_error (k : OpKind) (env : OsEnv)
    (mgr : FileDialogManager) (filter : Option (List FileTypeFilter))
    (title : Option String) (e : DialogError)
    (h : (dialog_invoke k env mgr filter title).outcome = .err e
       ∨ (dialog_invoke k env mgr filter title).outcome = .ok none) :
    (dialog_invoke k env mgr filter title).manager = mgr := by
  rcases invoke_manager_cases k env mgr filter title with hm | ⟨P, _, hout, _⟩
  · exact hm
  · rcases h with h | h <;> rw [hout] at h <;> simp at h

/-- C4 witness: a cancelled Open run at concrete inputs leaves the registry
unchanged. -/
theorem C4_atomic_on_cancel_or_error_witness :
    (dialog_invoke .openFile
        ⟨true, some 0, true, true, true, true, false, true, true, some "C:/x"⟩
        ⟨WPath.valid "C:/d", ⟨7⟩⟩ none none).manager
      = ⟨WPath.valid "C:/d", ⟨7⟩⟩ :=
  C4_atomic_on_cancel_or_error .openFile
    ⟨true, some 0, true, true, true, true, false, true, true, some "C:/x"⟩
    ⟨WPath.valid "C:/d", ⟨7⟩⟩ none none .decodeFailed (Or.inr rfl)

/-- C5: Cancellation is not an error.  With every configuration call
succeeding, a dismissed dialog (`Show` reporting non-success) yields
`Ok(None)`; and a failed configuration call (here: resolving the starting
folder fails) yields that call's error, never `Ok(None)` — for all of
`open`, `open_folder` and `save`. -/
theorem C5_cancel_vs_error (k : OpKind) (env env2 : OsEnv)
    (mgr : FileDialogManager) (filter : Option (List FileTypeFilter))
    (title : Option String) (s : String) (opts opts2 : Nat)
    (hpath : mgr.default = WPath.valid s)
    (aft : env.set_file_types_ok = true) (ago : env.get_options = some opts)
    (aso : env.set_options_ok = true) (ast : env.set_title_ok = true)
    (apn : env.parsing_name_ok = true) (asf : env.set_default_folder_ok = true)
    (ash : env.show_ok = false)
    (bft : env2.set_file_types_ok = true) (bgo : env2.get_options = some opts2)
    (bso : env2.set_options_ok = true) (bst : env2.set_title_ok = true)
    (bpn : env2.parsing_name_ok = false) :
    (dialog_invoke k env mgr filter title).outcome = .ok none
    ∧ (dialog_invoke k env2 mgr filter title).outcome = .err .parsingNameFailed := by
  rcases env with ⟨ft, go, so, stk, pn, sf, sh, gr, gd, dec⟩
  rcases env2 with ⟨ft2, go2, so2, stk2, pn2, sf2, sh2, gr2, gd2, dec2⟩
  subst aft; subst ago; subst aso; subst ast; subst apn; subst asf; subst ash
  subst bft; subst bgo; subst bso; subst bst; subst bpn
  rcases mgr with ⟨pd, w⟩
  rcases pd with s2 | tag
  · cases k <;> rcases filter with _ | fs <;> exact ⟨rfl, rfl⟩
  · exact nomatch hpath

/-- C5 witness: concrete cancelled run and concrete configuration-failure run
of the Open dialog. -/
theorem C5_cancel_vs_error_witness :
    (dialog_invoke .openFile
        ⟨true, some 0, true, true, true, true, false, true, true, some "C:/x"⟩
        ⟨WPath.valid "C:/d", ⟨7⟩⟩ none none).outcome = .ok none
    ∧ (dialog_invoke .openFile
        ⟨true, some 0, true, true, false, true, true, true, true, some "C:/x"⟩
        ⟨WPath.valid "C:/d", ⟨7⟩⟩ none none).outcome = .err .parsingNameFailed :=
  C5_cancel_vs_error .openFile
    ⟨true, some 0, true, true, true, true, false, true, true, some "C:/x"⟩
    ⟨true, some 0, true, true, false, true, true, true, true, some "C:/x"⟩
    ⟨WPath.valid "C:/d", ⟨7⟩⟩ none none "C:/d" 0 0
    rfl rfl rfl rfl rfl rfl rfl rfl rfl rfl rfl rfl rfl

/-- `open_inner` never issues a `SetFileTypes` call. -/
theorem open_inner_trace_no_filters (env : OsEnv) (mgr : FileDialogManager)
    (title : Option String) :
    ((OpenDialog.open_inner env mgr title).trace.any OsCall.isSetFileTypes) = false := by
  rcases env with ⟨ft, go, so, stk, pn, sf, sh, gr, gd, dec⟩
  rcases mgr with ⟨pd, w⟩
  rcases pd with s | tag <;> cases stk <;> cases pn <;> cases sf <;> cases sh <;>
    cases gr <;> cases gd <;> rcases dec with _ | P <;> rfl

/-- C8: `open_folder`/`open` equivalence.  When the options round-trip
succeeds, `open_folder(title)` has the same outcome and the same registry
effect as `open` with no filters and the same title; its OS-call trace is
exactly that of `open(None, title)` preceded by reading the options and
writing them back with the `FOS_PICKFOLDERS` bit ORed in; and `open_folder`
never installs type filters. -/
theorem C8_open_folder_equiv (env : OsEnv) (mgr : FileDialogManager)
    (title : Option String) (opts : Nat)
    (hgo : env.get_options = some opts) (hso : env.set_options_ok = true) :
    (OpenDialog.open_folder env mgr title).outcome
      = (OpenDialog.open_dlg env mgr none title).outcome
    ∧ (OpenDialog.open_folder env mgr title).manager
      = (OpenDialog.open_dlg env mgr none title).manager
    ∧ (OpenDialog.open_folder env mgr title).trace
      = OsCall.getOptions :: OsCall.setOptions (opts ||| FOS_PICKFOLDERS)
          :: (OpenDialog.open_dlg env mgr none title).trace
    ∧ ((OpenDialog.open_folder env mgr title).trace.any OsCall.isSetFileTypes) = false := by
  rcases env with ⟨ft, go, so, stk, pn, sf, sh, gr, gd, dec⟩
  subst hgo; subst hso
  exact ⟨rfl, rfl, rfl, open_inner_trace_no_filters _ _ title⟩

/-- C8 witness: the equivalence at a concrete environment, registry and
title. -/
theorem C8_open_folder_equiv_witness :
    (OpenDialog.open_folder
        ⟨true, some 5, true, true, true, true, true, true, true, some "C:/x"⟩
        ⟨WPath.valid "C:/d", ⟨3⟩⟩ none).outcome
      = (OpenDialog.open_dlg
        ⟨true, some 5, true, true, true, true, true, true, true, some "C:/x"⟩
        ⟨WPath.valid "C:/d", ⟨3⟩⟩ none none).outcome
    ∧ (OpenDialog.open_folder
        ⟨true, some 5, true, true, true, true, true, true, true, some "C:/x"⟩
        ⟨WPath.valid "C:/d", ⟨3⟩⟩ none).manager
      = (OpenDialog.open_dlg
        ⟨true, some 5, true, true, true, true, true, true, true, some "C:/x"⟩
        ⟨WPath.valid "C:/d", ⟨3⟩⟩ none none).manager
    ∧ (OpenDialog.open_folder
        ⟨true, some 5, true, true, true, true, true, true, true, some "C:/x"⟩
        ⟨WPath.valid "C:/d", ⟨3⟩⟩ none).trace
      = OsCall.getOptions :: OsCall.setOptions (5 ||| FOS_PICKFOLDERS)
          :: (OpenDialog.open_dlg
        ⟨true, some 5, true, true, true, true, true, true, true, some "C:/x"⟩
        ⟨WPath.valid "C:/d", ⟨3⟩⟩ none none).trace
    ∧ ((OpenDialog.open_folder
        ⟨true, some 5, true, true, true, true, true, true, true, some "C:/x"⟩
        ⟨WPath.valid "C:/d", ⟨3⟩⟩ none).trace.any OsCall.isSetFileTypes) = false :=
  C8_open_folder_equiv
    ⟨true, some 5, true, true, true, true, true, true, true, some "C:/x"⟩
    ⟨WPath.valid "C:/d", ⟨3⟩⟩ none 5 rfl rfl

/-- `open_inner` panics exactly when the registry's default path is not valid
Unicode and the title call (which runs first) succeeded. -/
theorem open_inner_panics_iff (env : OsEnv) (mgr : FileDialogManager)
    (title : Option String) :
    ((OpenDialog.open_inner env mgr title).outcome = .panics) ↔
      (mgr.default.to_str = none ∧ env.set_title_ok = true) := by
  rcases env with ⟨ft, go, so, stk, pn, sf, sh, gr, gd, dec⟩
  rcases mgr with ⟨pd, w⟩
  rcases pd with s | tag <;> cases stk <;> cases pn <;> cases sf <;> cases sh <;>
    cases gr <;> cases gd <;> rcases dec with _ | P <;>
    simp [OpenDialog.open_inner, FileDialogManager.get_default_open, FileDialogManager.get_default_save, FileDialogManager.set_default_open, FileDialogManager.set_default_save, FileDialogManager.get_window_handle, WPath.to_str]

/-- `open` panics exactly when the filter stage passed (no filters supplied,
or `SetFileTypes` succeeded) and `open_inner` panics. -/
theorem open_dlg_panics_iff (env : OsEnv) (mgr : FileDialogManager)
    (filter : Option (List FileTypeFilter)) (title : Option String) :
    ((OpenDialog.open_dlg env mgr filter title).outcome = .panics) ↔
      (mgr.default.to_str = none ∧ env.set_title_ok = true
        ∧ (filter = none ∨ env.set_file_types_ok = true)) := by
  rcases filter with _ | fs
  · simpa using open_inner_panics_iff env mgr title
  · cases hft : env.set_file_types_ok
    · simp [OpenDialog.open_dlg, hft]
    · simpa [OpenDialog.open_dlg, hft] using open_inner_panics_iff env mgr title

/-- `open_folder` panics exactly when the options stage passed and
`open_inner` panics. -/
theorem open_folder_panics_iff (env : OsEnv) (mgr : FileDialogManager)
    (title : Option String) :
    ((OpenDialog.open_folder env mgr title).outcome = .panics) ↔
      (mgr.default.to_str = none ∧ env.set_title_ok = true
        ∧ (∃ o, env.get_options = some o) ∧ env.set_options_ok = true) := by
  cases hgo : env.get_options with
  | none => simp [OpenDialog.open_folder, hgo]
  | some o =>
    cases hso : env.set_options_ok
    · simp [OpenDialog.open_folder, hgo, hso]
    · simpa [OpenDialog.open_folder, hgo, hso] using open_inner_panics_iff env mgr title

set_option maxHeartbeats 3200000 in
/-- `save` panics exactly when the filter stage passed and the save body
reaches the default-path conversion with a non-Unicode path after a
successful title call. -/
theorem save_panics_iff (env : OsEnv) (mgr : FileDialogManager)
    (filter : Option (List FileTypeFilter)) (title : Option String) :
    ((SaveDialog.save env mgr filter title).outcome = .panics) ↔
      (mgr.default.to_str = none ∧ env.set_title_ok = true
        ∧ (filter = none ∨ env.set_file_types_ok = true)) := by
  rcases env with ⟨ft, go, so, stk, pn, sf, sh, gr, gd, dec⟩
  rcases mgr with ⟨pd, w⟩
  rcases filter with _ | fs <;> rcases pd with s | tag <;> cases ft <;> cases stk <;>
    cases pn <;> cases sf <;> cases sh <;> cases gr <;> cases gd <;>
    rcases dec with _ | P <;>
    simp [SaveDialog.save, FileDialogManager.get_default_open, FileDialogManager.get_default_save, FileDialogManager.set_default_open, FileDialogManager.set_default_save, FileDialogManager.get_window_handle, WPath.to_str]

/-- C10: Non-Unicode default path panics.  If the registry's remembered
default path is not valid Unicode (`Path::to_str` returns `None`), then every
`open`/`open_folder`/`save` invocation that reaches the default-path
conversion (its preceding configuration calls succeed) panics via `unwrap`
rather than returning a typed error; and with a valid-Unicode default path no
invocation ever panics, whatever the OS does. -/
theorem C10_non_unicode_default_panics (k k2 : OpKind) (env env2 : OsEnv)
    (mgr mgr2 : FileDialogManager) (filter filter2 : Option (List FileTypeFilter))
    (title title2 : Option String) (tag : Nat) (s : String) (opts : Nat)
    (hinv : mgr.default = WPath.invalid tag)
    (h1 : env.set_title_ok = true)
    (h2 : env.set_file_types_ok = true)
    (h3 : env.get_options = some opts) (h4 : env.set_options_ok = true)
    (hval : mgr2.default = WPath.valid s) :
    (dialog_invoke k env mgr filter title).outcome = .panics
    ∧ (dialog_invoke k2 env2 mgr2 filter2 title2).outcome ≠ .panics := by
  have hnone : mgr.default.to_str = none := by rw [hinv]; rfl
  constructor
  · cases k
    · exact (open_dlg_panics_iff env mgr filter title).mpr ⟨hnone, h1, Or.inr h2⟩
    · exact (open_folder_panics_iff env mgr title).mpr ⟨hnone, h1, ⟨opts, h3⟩, h4⟩
    · exact (save_panics_iff env mgr filter title).mpr ⟨hnone, h1, Or.inr h2⟩
  · intro hcontra
    have hn2 : mgr2.default.to_str = none := by
      cases k2
      · exact ((open_dlg_panics_iff env2 mgr2 filter2 title2).mp hcontra).1
      · exact ((open_folder_panics_iff env2 mgr2 title2).mp hcontra).1
      · exact ((save_panics_iff env2 mgr2 filter2 title2).mp hcontra).1
    rw [hval] at hn2
    exact nomatch hn2

/-- C10 witness: a concrete non-Unicode default panics on Open; a concrete
valid default never panics. -/
theorem C10_non_unicode_default_panics_witness :
    (dialog_invoke .openFile
        ⟨true, some 0, true, true, true, true, true, true, true, some "C:/x"⟩
        ⟨WPath.invalid 0, ⟨1⟩⟩ none none).outcome = .panics
    ∧ (dialog_invoke .saveFile
        ⟨true, some 0, true, true, true, true, true, true, true, some "C:/x"⟩
        ⟨WPath.valid "C:/d", ⟨1⟩⟩ none none).outcome ≠ .panics :=
  C10_non_unicode_default_panics .openFile .saveFile
    ⟨true, some 0, true, true, true, true, true, true, true, some "C:/x"⟩
    ⟨true, some 0, true, true, true, true, true, true, true, some "C:/x"⟩
    ⟨WPath.invalid 0, ⟨1⟩⟩ ⟨WPath.valid "C:/d", ⟨1⟩⟩ none none none none
    0 "C:/d" 0 rfl rfl rfl rfl rfl rfl
